import Mathlib

/-
Shallow embedding of the source-resolution and retrieval subsystem of the
`kiara_plugin.onboarding` package.

The embedded code lives in:

  * `src/kiara_plugin/onboarding/models/__init__.py` — the onboard strategy
    models (`FileFromLocalModel`, `FileFromRemoteModel`, `FileFromZenodoModel`)
    with their `accepts_uri` predicates and `retrieve` operations;
  * `src/kiara_plugin/onboarding/modules/__init__.py` — the dispatcher
    (`OnboardFileModule.find_matching_onboard_models` / `process`);
  * `src/kiara_plugin/onboarding/utils/download.py` — the shared download and
    archive-extraction helpers (`download_file`, `download_file_bundle`).

External effects (the filesystem, the HTTP client, the Zenodo record lookup,
the archive extractors) are passed in explicitly as oracle parameters; the
logic that consumes them is translated line by line from the Python source.
Python string operations (`str.split`, `in`, slicing, truthiness) are embedded
by small helpers defined first.
-/

set_option linter.unusedVariables false

namespace Onboarding

/-! ## Python string / truthiness helpers

Python string primitives are embedded as structurally recursive functions over
the character list of a `String`, so that every definition evaluates inside the
kernel. -/

/-- Python `s.startswith(p)`. -/
def pyStartsWith (s p : String) : Bool :=
  p.data.isPrefixOf s.data

/-- Worker for Python `s.split(sep)` with non-empty `sep`: scan left to right,
cutting at each non-overlapping occurrence of `sep`.  `acc` holds the current
segment reversed; `fuel` bounds the recursion depth and is always supplied
strictly greater than the number of remaining characters, so the exhaustion
branch is unreachable. -/
def pySplitAux (sep : List Char) : Nat → List Char → List Char → List (List Char)
  | 0, s, acc => [acc.reverse ++ s]
  | fuel + 1, s, acc =>
    match s with
    | [] => [acc.reverse]
    | c :: rest =>
      if sep.isPrefixOf s then
        acc.reverse :: pySplitAux sep fuel (s.drop sep.length) []
      else
        pySplitAux sep fuel rest (c :: acc)

/-- Python `s.split(sep)` for a separator string.  Python raises `ValueError`
on an empty separator; the embedded code never splits on the empty string, and
that case is mapped to the whole-string singleton. -/
def pySplit (s sep : String) : List String :=
  match sep.data with
  | [] => [s]
  | _ :: _ => (pySplitAux sep.data (s.data.length + 1) s.data []).map String.mk

/-- Python substring membership `sub in s`.  The empty string is a substring of
everything; a non-empty `sub` occurs in `s` iff splitting `s` on `sub` yields
more than one segment. -/
def pyContains (s sub : String) : Bool :=
  sub.data.isEmpty || (pySplit s sub).length != 1

/-- Python `s.split(sep, maxsplit=1)` for a non-empty separator: split at the
first occurrence of `sep` only. -/
def pySplitOnce (s sep : String) : List String :=
  match pySplit s sep with
  | [] => [s]
  | [x] => [x]
  | x :: rest => [x, String.intercalate sep rest]

/-- Python truthiness of an `Optional[str]` value: `None` and the empty string
are falsy, every other string is truthy. -/
def pyTruthyStr : Option String → Bool
  | none => false
  | some s => !(s == "")

/-- Python truthiness of the `(bool, reason)` pair returned by `accepts_uri`
(`models/__init__.py` declares `accepts_uri(uri) -> Tuple[bool, str]`).
In Python, `bool(t)` of a 2-tuple `t` is `True` regardless of its components,
so the checks `if python_cls.accepts_uri(uri):` (modules/__init__.py line 114)
and `if not model_cls.accepts_uri(source):` (lines 147 and 153) see every
returned pair as truthy. -/
def tupleTruthy (t : Bool × String) : Bool := true

/-! ## Filesystem environment

`os.path.abspath` and `os.path.isfile` / `os.path.isdir` are external state;
they are modelled as an explicit environment record. -/

structure FsEnv where
  absPath : String → String
  isFileAt : String → Bool
  isDirAt : String → Bool

/-! ## `accepts_uri` predicates (models/__init__.py) -/

/-- `FileFromLocalModel.accepts_uri` (models/__init__.py lines 53-59):
`os.path.isfile(os.path.abspath(uri))`. -/
def FileFromLocalModel.accepts_uri (env : FsEnv) (uri : String) : Bool × String :=
  if env.isFileAt (env.absPath uri) then
    (true, "local file exists and is file")
  else
    (false, "local file does not exist or is not a file")

/-- `FileFromLocalModel.accepts_bundle_uri` (models/__init__.py lines 61-67):
`os.path.isdir(os.path.abspath(uri))`. -/
def FileFromLocalModel.accepts_bundle_uri (env : FsEnv) (uri : String) : Bool × String :=
  if env.isDirAt (env.absPath uri) then
    (true, "local folder exists and is folder")
  else
    (false, "local folder does not exist or is not a folder")

/-- `FileFromRemoteModel.accepts_uri` (models/__init__.py lines 104-112): the
source loops over `accepted_protocols = ["http", "https"]` testing
`uri.startswith(f"{protocol}://")`; the loop is unrolled here. -/
def FileFromRemoteModel.accepts_uri (uri : String) : Bool × String :=
  if pyStartsWith uri "http://" then
    (true, "url is valid (starts with http or https)")
  else if pyStartsWith uri "https://" then
    (true, "url is valid (starts with http or https)")
  else
    (false, "url is not valid (does not start with http or https)")

/-- `FileFromZenodoModel.accepts_uri` (models/__init__.py lines 139-148):
accepted iff the URI starts with `zenodo:` or contains `/zenodo.`. -/
def FileFromZenodoModel.accepts_uri (uri : String) : Bool × String :=
  if pyStartsWith uri "zenodo:" then
    (true, "url is valid (follows format zenodo:<doi>)")
  else if pyContains uri "/zenodo." then
    (true, "url is valid (contains /zenodo.)")
  else
    (false, "url is not valid (does not follow format zenodo:<doi>)")

/-! ## Zenodo URI parsing (models/__init__.py, retrieve / retrieve_bundle) -/

inductive ZenodoErr where
  /-- The cannot-parse-DOI `KiaraException` of the Zenodo retrievals. -/
  | cannotParseDoi (doi : String)
  /-- The file-not-found-in-record `KiaraException`, listing the available
  keys. -/
  | fileNotFoundInRecord (filePath : String) (availableKeys : List String)
  /-- The invalid-checksum `KiaraException` of the Zenodo retrievals. -/
  | invalidChecksum (fileName checksum digest : String)
  /-- Python `NameError`: the local variable `doi` is referenced without having
  been assigned (no branch of the `if uri.startswith(...)/elif ... in uri`
  chain ran). -/
  | nameError
  /-- Python `TypeError`: `download_file` is called with keyword arguments
  (`target`, `return_md5_hash`) that its definition in `utils/download.py`
  does not accept. -/
  | typeErrorDownloadCall
  deriving DecidableEq, Repr

/-- The `doi` local variable of `FileFromZenodoModel.retrieve` /
`retrieve_bundle` (models/__init__.py lines 158-161 and 229-232): assigned from
the URI when one of the two acceptance patterns matches, otherwise left
unassigned (`none`, a `NameError` at first use). -/
def zenodoDoiOfUri (uri : String) : Option String :=
  if pyStartsWith uri "zenodo:" then some (uri.drop "zenodo:".length)
  else if pyContains uri "/zenodo." then some uri
  else none

structure ZenodoSingleParse where
  doi : String
  recordId : String
  filePath : String
  deriving DecidableEq, Repr

structure ZenodoBundleParse where
  doi : String
  zid : String
  filePath : Option String
  deriving DecidableEq, Repr

/-- Parsing phase of `FileFromZenodoModel.retrieve`
(models/__init__.py lines 158-176): split the DOI on `/zenodo.`, requiring
exactly two segments; split the second segment once more on `/`, requiring a
file path; reconstruct `_doi = f"{tokens[0]}/zenodo.{path_components[0]}"`. -/
def FileFromZenodoModel.parseSingle (uri : String) : Except ZenodoErr ZenodoSingleParse :=
  match zenodoDoiOfUri uri with
  | none => Except.error ZenodoErr.nameError
  | some doi =>
    match pySplit doi "/zenodo." with
    | [t0, t1] =>
      match pySplitOnce t1 "/" with
      | [p0, p1] =>
        Except.ok { doi := t0 ++ "/zenodo." ++ p0, recordId := p0, filePath := p1 }
      | _ => Except.error (ZenodoErr.cannotParseDoi doi)
    | _ => Except.error (ZenodoErr.cannotParseDoi doi)

/-- Parsing phase of `FileFromZenodoModel.retrieve_bundle`
(models/__init__.py lines 229-249): same split on `/zenodo.`, but the file
path is optional — one path component means whole-record bundle mode. -/
def FileFromZenodoModel.parseBundle (uri : String) : Except ZenodoErr ZenodoBundleParse :=
  match zenodoDoiOfUri uri with
  | none => Except.error ZenodoErr.nameError
  | some doi =>
    match pySplit doi "/zenodo." with
    | [t0, t1] =>
      match pySplitOnce t1 "/" with
      | [p0, p1] =>
        Except.ok { doi := t0 ++ "/zenodo." ++ p0, zid := p0, filePath := some p1 }
      | [p0] =>
        Except.ok { doi := t0 ++ "/zenodo." ++ p0, zid := p0, filePath := none }
      | _ => Except.error (ZenodoErr.cannotParseDoi doi)
    | _ => Except.error (ZenodoErr.cannotParseDoi doi)

example : FileFromZenodoModel.parseSingle "zenodo:10.5281/zenodo.1234/data/file.csv" =
    Except.ok { doi := "10.5281/zenodo.1234", recordId := "1234", filePath := "data/file.csv" } := rfl

example : FileFromZenodoModel.parseBundle "zenodo:10.5281/zenodo.1234" =
    Except.ok { doi := "10.5281/zenodo.1234", zid := "1234", filePath := none } := rfl

example : FileFromZenodoModel.parseSingle "zenodo:10.5281/zenodo.1234" =
    Except.error (ZenodoErr.cannotParseDoi "10.5281/zenodo.1234") := rfl

/-! ## Download helper (utils/download.py) -/

/-- One header mapping (`dict(r.headers)`). -/
abbrev HeaderMap := List (String × String)

/-- The outcome of the streaming `GET` issued by the download helper
(`httpx.stream("GET", url, follow_redirects=True)`): `headers` are the headers
of the terminal response `r`, `history` the header mappings of the redirect
responses in `r.history`, and `body` the bytes yielded by `r.iter_bytes()`. -/
structure HttpResponse where
  headers : HeaderMap
  history : List HeaderMap
  body : List Nat

/-- `DownloadMetadata` (utils/download.py lines 14-19). -/
structure DownloadMetadata where
  url : String
  response_headers : List HeaderMap
  request_time : String

/-- The `FileModel` produced by `download_file`: the temporary path the bytes
were written to, the display name, the bytes themselves, and the optionally
attached download metadata. -/
structure FileModel where
  localPath : String
  file_name : String
  content : List Nat
  metadata : Option DownloadMetadata

/-- The parameter names accepted by `download_file` as defined in
utils/download.py line 28-30: `def download_file(url, file_name=None,
attach_metadata=True)`. -/
def download_fileParams : List String := ["url", "file_name", "attach_metadata"]

/-- The keyword arguments passed to `download_file` by
`FileFromZenodoModel.retrieve` (models/__init__.py lines 201-207) and by both
branches of `retrieve_bundle` (lines 268-274 and 309-315). -/
def zenodoDownloadCallKwargs : List String :=
  ["url", "target", "file_name", "attach_metadata", "return_md5_hash"]

/-- Whether every keyword argument of the Zenodo call sites names a parameter
of `download_file`; when this is false Python raises `TypeError` at the call,
before `download_file` runs. -/
def zenodoDownloadCallCompatible : Bool :=
  zenodoDownloadCallKwargs.all (fun k => download_fileParams.contains k)

/-- `download_file` (utils/download.py lines 28-63).  The HTTP client is the
oracle `httpGet`; `tmpPath` stands for the `NamedTemporaryFile` name and `now`
for the ISO timestamp taken at metadata-build time.  The captured header list
is the terminal response first, then every redirect hop from `r.history`.  No
hash of any kind is computed. -/
def download_file (httpGet : String → HttpResponse) (tmpPath now : String)
    (url : String) (file_name : Option String) (attach_metadata : Bool) : FileModel :=
  let r := httpGet url
  let history := r.headers :: r.history
  let fname :=
    if pyTruthyStr file_name then file_name.getD ""
    else (pySplit url "/").getLastD ""
  let result_file : FileModel :=
    { localPath := tmpPath, file_name := fname, content := r.body, metadata := none }
  if attach_metadata then
    { result_file with
        metadata := some { url := url, response_headers := history, request_time := now } }
  else
    result_file

/-! ## Archive extraction with fallback (utils/download.py lines 106-119) -/

/-- The two extraction backends tried by `download_file_bundle`, in source
order. -/
inductive ExtractMethod where
  | shutilUnpackArchive
  | patoolExtractArchive
  deriving DecidableEq, Repr

/-- The archive-extraction fallback of `download_file_bundle`
(utils/download.py lines 106-119), instrumented with the list of attempted
methods: try `shutil.unpack_archive`; on any exception try
`patoolib.extract_archive`; only when the second attempt also raises is
`error` set (to the second exception `e`) and
`KiaraException(f"Could not extract archive: {error}.")` raised.  The two
attempts are oracle parameters giving the outcome of each backend on the archive at
hand. -/
def extractArchiveWithFallbackTraced (primary secondary : Except String Unit) :
    Except String Unit × List ExtractMethod :=
  match primary with
  | Except.ok _ => (Except.ok (), [ExtractMethod.shutilUnpackArchive])
  | Except.error _ =>
    match secondary with
    | Except.ok _ =>
      (Except.ok (), [ExtractMethod.shutilUnpackArchive, ExtractMethod.patoolExtractArchive])
    | Except.error e =>
      (Except.error ("Could not extract archive: " ++ e ++ "."),
        [ExtractMethod.shutilUnpackArchive, ExtractMethod.patoolExtractArchive])

/-- Result component of the extraction fallback. -/
def extractArchiveWithFallback (primary secondary : Except String Unit) :
    Except String Unit :=
  (extractArchiveWithFallbackTraced primary secondary).fst

/-! ## Bundle download (utils/download.py lines 66-134) -/

/-- `FolderImportConfig` is an abstract record owned by the host framework; only
its identity matters here. -/
structure FolderImportConfig where
  data : List (String × String)

/-- `DownloadBundleMetadata` (utils/download.py lines 22-25). -/
structure DownloadBundleMetadata where
  url : String
  response_headers : List HeaderMap
  request_time : String
  import_config : FolderImportConfig

/-- The `FileBundle` produced by `download_file_bundle`. -/
structure FileBundle where
  rootPath : String
  metadata : Option DownloadBundleMetadata

inductive BundleFailure where
  /-- `KiaraException(f"Could not extract archive: {error}.")`. -/
  | kiaraError (msg : String)
  /-- Python `AttributeError`: `import_config.dict()` with `import_config`
  equal to `None`. -/
  | attributeError
  deriving Repr

/-- `download_file_bundle` (utils/download.py lines 66-134): stream the URL to
a temporary file, extract it with the two-tier fallback into `outDir`, import
the directory as a bundle, and, when `attach_metadata` is true, build a
`DownloadBundleMetadata` whose construction evaluates `import_config.dict()` —
an `AttributeError` when `import_config` is `None` (its default).  `httpGet`,
`tmpPath`, `outDir`, `now` and the two extraction outcomes are oracles for the
external effects. -/
def download_file_bundle (httpGet : String → HttpResponse) (tmpPath outDir now : String)
    (primaryExtract secondaryExtract : Except String Unit)
    (url : String) (attach_metadata : Bool)
    (import_config : Option FolderImportConfig) : Except BundleFailure FileBundle :=
  let r := httpGet url
  let history := r.headers :: r.history
  match extractArchiveWithFallback primaryExtract secondaryExtract with
  | Except.error msg => Except.error (BundleFailure.kiaraError msg)
  | Except.ok _ =>
    let bundle : FileBundle := { rootPath := outDir, metadata := none }
    if attach_metadata then
      match import_config with
      | none => Except.error BundleFailure.attributeError
      | some cfg =>
        Except.ok
          { bundle with
              metadata := some
                { url := url, response_headers := history, request_time := now,
                  import_config := cfg } }
    else
      Except.ok bundle

/-! ## Zenodo single-file retrieval (models/__init__.py lines 150-217) -/

/-- One entry of `record.data["files"]`: a key, a declared checksum (the raw
`"md5:..."` string; the code uses `checksum[4:]`), and the download link
`links.self`. -/
structure ZenodoFileData where
  key : String
  checksum : String
  selfLink : String

/-- The part of a Zenodo record the code reads. -/
structure ZenodoRecord where
  files : List ZenodoFileData

/-- `FileFromZenodoModel.retrieve` (models/__init__.py lines 150-217):
parse the URI, resolve the record through the external lookup oracle
`findRecord` (`zen.find_record_by_doi(_doi)`), linearly scan the file list of the record
for the first descriptor whose key equals the parsed file path (failing
with the available keys listed otherwise), then call
`download_file(url=..., target=None, file_name=..., attach_metadata=...,
return_md5_hash=True)`.  `download_file` as defined in utils/download.py
accepts neither `target` nor `return_md5_hash`, so in this version of the code
that call raises `TypeError`; the checksum comparison and metadata attachment
that follow it in the source are unreachable. -/
def FileFromZenodoModel.retrieve (findRecord : String → ZenodoRecord)
    (uri : String) (file_name : Option String) (attach_metadata : Bool) :
    Except ZenodoErr FileModel :=
  match FileFromZenodoModel.parseSingle uri with
  | Except.error e => Except.error e
  | Except.ok p =>
    let record := findRecord p.doi
    match record.files.find? (fun f => f.key == p.filePath) with
    | none =>
      Except.error
        (ZenodoErr.fileNotFoundInRecord p.filePath (record.files.map (fun f => f.key)))
    | some _m =>
      Except.error ZenodoErr.typeErrorDownloadCall

/-! ## Dispatcher (modules/__init__.py) -/

/-- An entry of the model registry as the dispatcher sees it: the model class
identifier and its `accepts_uri` class method. -/
structure OnboardModelCls where
  kiaraModelId : String
  accepts_uri : String → Bool × String

/-- `ONBOARDING_MODEL_NAME_PREFIX` (modules/__init__.py line 23). -/
def ONBOARDING_MODEL_NAME_PREFIX : String := "onboarding.file.from."

/-- The `OnboardDataModel` subclasses this plugin registers
(models/__init__.py): exactly the local-file, url and zenodo models.  The
external `ModelRegistry` serves these as `item_infos` keyed by model id. -/
def registeredModels (env : FsEnv) : List OnboardModelCls :=
  [ { kiaraModelId := "onboarding.file.from.local_file",
      accepts_uri := FileFromLocalModel.accepts_uri env },
    { kiaraModelId := "onboarding.file.from.url",
      accepts_uri := FileFromRemoteModel.accepts_uri },
    { kiaraModelId := "onboarding.file.from.zenodo",
      accepts_uri := FileFromZenodoModel.accepts_uri } ]

/-- `OnboardFileModule.find_matching_onboard_models`
(modules/__init__.py lines 102-116): iterate over the registered model classes
and keep those for which `if python_cls.accepts_uri(uri):` holds — the Python
truthiness of the returned `(bool, reason)` tuple, not its boolean
component. -/
def find_matching_onboard_models (env : FsEnv) (uri : String) : List OnboardModelCls :=
  (registeredModels env).filter (fun m => tupleTruthy (m.accepts_uri uri))

/-- The external `ModelRegistry.get_model_cls(model_id, OnboardDataModel)`
lookup, modelled as a search among the registered models; the registry raises
when no model has the requested id, mapped to `none` here. -/
def get_model_cls (env : FsEnv) (modelId : String) : Option OnboardModelCls :=
  (registeredModels env).find? (fun m => m.kiaraModelId == modelId)

inductive ProcessError where
  /-- `KiaraProcessingException("Can not onboard file from ...: no onboard
  models found that accept this source type.")`. -/
  | noOnboardModelsFound (source : String)
  /-- `KiaraProcessingException("Can not onboard file from ...: multiple
  onboard models found that accept this source type. ...")`. -/
  | multipleOnboardModelsFound (source : String)
  /-- The registry lookup failed: no onboard model with this name. -/
  | unknownOnboardModel (source onboardType : String)
  /-- `KiaraProcessingException("Can not onboard file from ... using onboard
  type ...")` — the re-validation of `accepts_uri` rejected the source. -/
  | onboardTypeRejectsSource (source modelId : String)
  deriving DecidableEq, Repr

/-- The strategy-selection phase of `OnboardFileModule.process`
(modules/__init__.py lines 118-154): with no configured onboard type and no
user-supplied onboard type, auto-detect via `find_matching_onboard_models`
(zero matches and more-than-one matches are errors); with a user-supplied
type, prefix it, look it up in the registry, and re-check
`if not model_cls.accepts_uri(source):`; with a configured type, look it up
and perform the same re-check.  Both re-checks apply Python truthiness to the
`(bool, reason)` tuple. -/
def processSelectModel (env : FsEnv) (onboard_type : Option String)
    (user_input_onboard_type : Option String) (source : String) :
    Except ProcessError OnboardModelCls :=
  if !(pyTruthyStr onboard_type) then
    if !(pyTruthyStr user_input_onboard_type) then
      match find_matching_onboard_models env source with
      | [] => Except.error (ProcessError.noOnboardModelsFound source)
      | m :: rest =>
        if rest.length + 1 > 1 then
          Except.error (ProcessError.multipleOnboardModelsFound source)
        else
          Except.ok m
    else
      let full := ONBOARDING_MODEL_NAME_PREFIX ++ user_input_onboard_type.getD ""
      match get_model_cls env full with
      | none => Except.error (ProcessError.unknownOnboardModel source full)
      | some model_cls =>
        if !(tupleTruthy (model_cls.accepts_uri source)) then
          Except.error (ProcessError.onboardTypeRejectsSource source model_cls.kiaraModelId)
        else
          Except.ok model_cls
  else
    let ot := onboard_type.getD ""
    match get_model_cls env ot with
    | none => Except.error (ProcessError.unknownOnboardModel source ot)
    | some model_cls =>
      if !(tupleTruthy (model_cls.accepts_uri source)) then
        Except.error (ProcessError.onboardTypeRejectsSource source model_cls.kiaraModelId)
      else
        Except.ok model_cls

/-- The filesystem on which no path is an existing regular file or directory
(absolute paths taken verbatim): the environment of the dispatch
counterexamples, where the source URI is a URL and not a local path. -/
def envNoLocalFiles : FsEnv :=
  { absPath := id, isFileAt := fun _ => false, isDirAt := fun _ => false }

/-- The filesystem on which exactly the regular file `/home/user/zenodo.txt`
exists (absolute paths taken verbatim). -/
def envZenodoNamedFile : FsEnv :=
  { absPath := id, isFileAt := fun p => p == "/home/user/zenodo.txt",
    isDirAt := fun _ => false }

/-- The filesystem on which exactly the regular file `/home/user/data.csv`
exists (absolute paths taken verbatim). -/
def envPlainDataFile : FsEnv :=
  { absPath := id, isFileAt := fun p => p == "/home/user/data.csv",
    isDirAt := fun _ => false }

/-- The HTTP oracle of the concrete witnesses: one response with a single
terminal header mapping and no redirect history. -/
def gWitness : String → HttpResponse :=
  fun _ => { headers := [("server", "test")], history := [], body := [1, 2] }

/-! ## Theorems -/

/-- Claim C2 (code bug): on the URI `https://example.com/x` (no local file of
that name exists) exactly one registered strategy has `accepts_uri` boolean
true, yet `find_matching_onboard_models` keeps all three registered models —
the source tests the truthiness of the `(bool, reason)` tuple, which is always
truthy — and auto-detect dispatch therefore fails with the
multiple-models-found error instead of selecting the single acceptor. -/
theorem auto_detect_ambiguous_despite_unique_acceptor :
    ((registeredModels envNoLocalFiles).filter
        (fun m => (m.accepts_uri "https://example.com/x").fst)).map
        (fun m => m.kiaraModelId) =
      ["onboarding.file.from.url"] ∧
    (find_matching_onboard_models envNoLocalFiles "https://example.com/x").map
        (fun m => m.kiaraModelId) =
      ["onboarding.file.from.local_file", "onboarding.file.from.url",
        "onboarding.file.from.zenodo"] ∧
    processSelectModel envNoLocalFiles none none "https://example.com/x" =
      Except.error (ProcessError.multipleOnboardModelsFound "https://example.com/x") :=
  ⟨rfl, rfl, rfl⟩

/-- Claim C3 (code bug): in explicit mode with strategy `local_file` and the
URI `https://example.com/x`, the local-file strategy `accepts_uri` boolean
is false, yet `process` selects the strategy anyway — the re-validation
`if not model_cls.accepts_uri(source):` tests the truthiness of the returned
tuple and can never fire, so no strategy-rejects-source error is raised and
the rejected URI proceeds to `retrieve`. -/
theorem explicit_mode_never_rejects_source :
    (FileFromLocalModel.accepts_uri envNoLocalFiles "https://example.com/x").fst = false ∧
    (processSelectModel envNoLocalFiles none (some "local_file") "https://example.com/x").map
        (fun m => m.kiaraModelId) =
      Except.ok "onboarding.file.from.local_file" :=
  ⟨rfl, rfl⟩

/-- Claim C5 counterexample: when both extraction attempts fail — the primary
with cause `primary cause A`, the secondary with cause `secondary cause B` —
the raised error message is built from the secondary cause alone and does not
reference the primary cause, contradicting the claim that the error chains
both underlying causes. -/
theorem extract_fallback_error_omits_primary_cause :
    extractArchiveWithFallback (Except.error "primary cause A")
        (Except.error "secondary cause B") =
      Except.error "Could not extract archive: secondary cause B." ∧
    pyContains "Could not extract archive: secondary cause B." "primary cause A" = false :=
  ⟨rfl, rfl⟩

/-- Claim C5 as amended: the primary extraction method is attempted first; the
secondary is attempted exactly when the primary fails; the operation fails
only when both attempts fail; and the reported error references the secondary
(fallback) failure only — the primary failure is swallowed. -/
theorem extract_fallback_behaviour (p s : Except String Unit) :
    (extractArchiveWithFallbackTraced p s).snd.head? =
      some ExtractMethod.shutilUnpackArchive ∧
    (p = Except.ok () →
      (extractArchiveWithFallbackTraced p s).snd = [ExtractMethod.shutilUnpackArchive] ∧
      extractArchiveWithFallback p s = Except.ok ()) ∧
    (∀ ep, p = Except.error ep →
      (extractArchiveWithFallbackTraced p s).snd =
        [ExtractMethod.shutilUnpackArchive, ExtractMethod.patoolExtractArchive]) ∧
    (∀ ep, p = Except.error ep → s = Except.ok () →
      extractArchiveWithFallback p s = Except.ok ()) ∧
    (∀ ep es, p = Except.error ep → s = Except.error es →
      extractArchiveWithFallback p s =
        Except.error ("Could not extract archive: " ++ es ++ ".")) := by
  cases p <;> cases s <;>
    simp [extractArchiveWithFallback, extractArchiveWithFallbackTraced]

/-- Witness for `extract_fallback_behaviour`: both attempts failing at a
concrete input produces the error built from the secondary cause. -/
theorem extract_fallback_behaviour_witness :
    ((Except.error "boom A" : Except String Unit) = Except.error "boom A" ∧
      (Except.error "boom B" : Except String Unit) = Except.error "boom B") ∧
    extractArchiveWithFallback (Except.error "boom A") (Except.error "boom B") =
      Except.error ("Could not extract archive: " ++ "boom B" ++ ".") :=
  ⟨⟨rfl, rfl⟩,
    (extract_fallback_behaviour (Except.error "boom A")
        (Except.error "boom B")).2.2.2.2 "boom A" "boom B" rfl rfl⟩

/-- Claim C6: both Zenodo parses split the DOI on the literal `/zenodo.` and
fail with the cannot-parse-DOI error unless exactly two segments result; and
the URI `zenodo:10.5281/zenodo.1234/data/file.csv` parses to DOI
`10.5281/zenodo.1234`, record id segment `1234` and file path
`data/file.csv`. -/
theorem zenodo_uri_parsing :
    (∀ uri doi, zenodoDoiOfUri uri = some doi →
      (pySplit doi "/zenodo.").length ≠ 2 →
      FileFromZenodoModel.parseSingle uri =
        Except.error (ZenodoErr.cannotParseDoi doi) ∧
      FileFromZenodoModel.parseBundle uri =
        Except.error (ZenodoErr.cannotParseDoi doi)) ∧
    FileFromZenodoModel.parseSingle "zenodo:10.5281/zenodo.1234/data/file.csv" =
      Except.ok { doi := "10.5281/zenodo.1234", recordId := "1234", filePath := "data/file.csv" } := by
  constructor
  · intro uri doi h hne
    rcases hl : pySplit doi "/zenodo." with _ | ⟨a, _ | ⟨b, _ | ⟨c, rest⟩⟩⟩
    · simp [FileFromZenodoModel.parseSingle, FileFromZenodoModel.parseBundle, h, hl]
    · simp [FileFromZenodoModel.parseSingle, FileFromZenodoModel.parseBundle, h, hl]
    · exact absurd (by rw [hl]; rfl) hne
    · simp [FileFromZenodoModel.parseSingle, FileFromZenodoModel.parseBundle, h, hl]
  · rfl

/-- Witness for `zenodo_uri_parsing`: the DOI of `zenodo:10.5281` yields a
single segment when split on `/zenodo.`, so parsing fails with the
cannot-parse-DOI error. -/
theorem zenodo_uri_parsing_witness :
    (zenodoDoiOfUri "zenodo:10.5281" = some "10.5281" ∧
      (pySplit "10.5281" "/zenodo.").length ≠ 2) ∧
    FileFromZenodoModel.parseSingle "zenodo:10.5281" =
      Except.error (ZenodoErr.cannotParseDoi "10.5281") :=
  ⟨⟨rfl, by decide⟩,
    (zenodo_uri_parsing.1 "zenodo:10.5281" "10.5281" rfl (by decide)).1⟩

/-- Claim C7 counterexample: `/home/user/zenodo.txt` is a path to an existing
regular file, the local-file strategy accepts it, and the Zenodo strategy
accepts it as well (the path contains the substring `/zenodo.`), so the
predicates of the other strategies are not all false on an existing-file path. -/
theorem accepts_uri_exclusivity_counterexample :
    envZenodoNamedFile.isFileAt (envZenodoNamedFile.absPath "/home/user/zenodo.txt") = true ∧
    (FileFromLocalModel.accepts_uri envZenodoNamedFile "/home/user/zenodo.txt").fst = true ∧
    (FileFromZenodoModel.accepts_uri "/home/user/zenodo.txt").fst = true :=
  ⟨rfl, rfl, rfl⟩

/-- Claim C7 as amended: for every URI that is a path to an existing regular
file and that does not carry the URI markers of another strategy (no `http://`,
`https://` or `zenodo:` prefix and no `/zenodo.` substring), the local-file
strategy accepts it and the HTTP and Zenodo strategies both reject it. -/
theorem accepts_uri_exclusivity_amended (env : FsEnv) (u : String)
    (hfile : env.isFileAt (env.absPath u) = true)
    (h1 : pyStartsWith u "http://" = false)
    (h2 : pyStartsWith u "https://" = false)
    (h3 : pyStartsWith u "zenodo:" = false)
    (h4 : pyContains u "/zenodo." = false) :
    (FileFromLocalModel.accepts_uri env u).fst = true ∧
    (FileFromRemoteModel.accepts_uri u).fst = false ∧
    (FileFromZenodoModel.accepts_uri u).fst = false := by
  refine ⟨?_, ?_, ?_⟩
  · simp [FileFromLocalModel.accepts_uri, hfile]
  · simp [FileFromRemoteModel.accepts_uri, h1, h2]
  · simp [FileFromZenodoModel.accepts_uri, h3, h4]

/-- Witness for `accepts_uri_exclusivity_amended` at the existing regular file
`/home/user/data.csv`. -/
theorem accepts_uri_exclusivity_amended_witness :
    (envPlainDataFile.isFileAt (envPlainDataFile.absPath "/home/user/data.csv") = true ∧
      pyStartsWith "/home/user/data.csv" "http://" = false ∧
      pyStartsWith "/home/user/data.csv" "https://" = false ∧
      pyStartsWith "/home/user/data.csv" "zenodo:" = false ∧
      pyContains "/home/user/data.csv" "/zenodo." = false) ∧
    ((FileFromLocalModel.accepts_uri envPlainDataFile "/home/user/data.csv").fst = true ∧
      (FileFromRemoteModel.accepts_uri "/home/user/data.csv").fst = false ∧
      (FileFromZenodoModel.accepts_uri "/home/user/data.csv").fst = false) :=
  ⟨⟨rfl, rfl, rfl, rfl, rfl⟩,
    accepts_uri_exclusivity_amended envPlainDataFile "/home/user/data.csv" rfl rfl rfl rfl rfl⟩

/-- Claim C1 (code bug): on the URI `zenodo:10.5281/zenodo.1234/data/file.csv`
with a record declaring any checksum for the file `data/file.csv`,
`FileFromZenodoModel.retrieve` fails with the `TypeError` raised at the
`download_file(..., target=None, ..., return_md5_hash=True)` call —
`download_file` in utils/download.py accepts neither keyword — so no MD5
digest is ever computed and the integrity failure of the checksum comparison
is unreachable, for matching and non-matching checksums alike. -/
theorem zenodo_checksum_gate_unreachable (checksum link : String) :
    FileFromZenodoModel.retrieve
        (fun _ => { files := [{ key := "data/file.csv", checksum := checksum, selfLink := link }] })
        "zenodo:10.5281/zenodo.1234/data/file.csv" none true =
      Except.error ZenodoErr.typeErrorDownloadCall := by
  rfl

/-- Claim C4 (code bug): the `download_file` definition in utils/download.py
accepts only `url`, `file_name` and `attach_metadata` — neither the
`return_md5_hash` nor the `target` keyword used by the Zenodo call sites — so
a caller cannot request a hash at all; the helper writes exactly the streamed
response bytes to the temporary file and returns no digest of them. -/
theorem download_file_lacks_hash_support :
    zenodoDownloadCallCompatible = false ∧
    download_fileParams.contains "return_md5_hash" = false ∧
    download_fileParams.contains "target" = false ∧
    (∀ (g : String → HttpResponse) (tmp now url : String) (fn : Option String)
        (am : Bool), (download_file g tmp now url fn am).content = (g url).body) :=
  ⟨rfl, rfl, rfl, by
    intro g tmp now url fn am
    cases am <;> rfl⟩

/-- Claim C8: whenever `download_file` is invoked with `attach_metadata` true,
and whenever `download_file_bundle` with `attach_metadata` true succeeds, the
`response_headers` list of the attached metadata is non-empty and contains the
header mapping of the terminal HTTP response. -/
theorem response_headers_invariant :
    (∀ (g : String → HttpResponse) (tmp now url : String) (fn : Option String)
        (md : DownloadMetadata),
      (download_file g tmp now url fn true).metadata = some md →
      1 ≤ md.response_headers.length ∧ (g url).headers ∈ md.response_headers) ∧
    (∀ (g : String → HttpResponse) (tmp out now url : String)
        (p s : Except String Unit) (cfg : FolderImportConfig) (b : FileBundle),
      download_file_bundle g tmp out now p s url true (some cfg) = Except.ok b →
      ∃ md, b.metadata = some md ∧
        1 ≤ md.response_headers.length ∧ (g url).headers ∈ md.response_headers) := by
  constructor
  · intro g tmp now url fn md h
    have h2 :
        some ({ url := url, response_headers := (g url).headers :: (g url).history, request_time := now } : DownloadMetadata) = some md :=
      h
    injection h2 with h3
    subst h3
    exact ⟨Nat.succ_le_succ (Nat.zero_le _), List.mem_cons_self _ _⟩
  · intro g tmp out now url p s cfg b h
    unfold download_file_bundle at h
    rcases hx : extractArchiveWithFallback p s with e | u
    · rw [hx] at h
      exact absurd h (by simp)
    · rw [hx] at h
      have h2 :
          Except.ok ({ rootPath := out, metadata := some { url := url, response_headers := (g url).headers :: (g url).history, request_time := now, import_config := cfg } } : FileBundle) = Except.ok b :=
        h
      injection h2 with h3
      subst h3
      exact ⟨_, rfl, Nat.succ_le_succ (Nat.zero_le _), List.mem_cons_self _ _⟩

/-- Witness for `response_headers_invariant` at a concrete download. -/
theorem response_headers_invariant_witness :
    (download_file gWitness "/tmp/t" "2023-01-01T00:00:00+00:00" "http://h/f" none true).metadata =
      some { url := "http://h/f", response_headers := [[("server", "test")]], request_time := "2023-01-01T00:00:00+00:00" } ∧
    (1 ≤ ([[("server", "test")]] : List HeaderMap).length ∧
      (gWitness "http://h/f").headers ∈ ([[("server", "test")]] : List HeaderMap)) :=
  ⟨rfl, response_headers_invariant.1 gWitness "/tmp/t" "2023-01-01T00:00:00+00:00"
    "http://h/f" none _ rfl⟩

/-- Claim C9: `download_file_bundle` with `attach_metadata` true (its default)
and `import_config` omitted/`None` (its default) fails with the
`AttributeError` from `import_config.dict()` after download and extraction
have succeeded, instead of returning a bundle; a successful metadata-attached
bundle download requires a non-`None` `import_config`. -/
theorem bundle_none_import_config_attribute_error :
    (∀ (g : String → HttpResponse) (tmp out now url : String)
        (p s : Except String Unit),
      extractArchiveWithFallback p s = Except.ok () →
      download_file_bundle g tmp out now p s url true none =
        Except.error BundleFailure.attributeError) ∧
    (∀ (g : String → HttpResponse) (tmp out now url : String)
        (p s : Except String Unit) (cfg : Option FolderImportConfig) (b : FileBundle),
      download_file_bundle g tmp out now p s url true cfg = Except.ok b →
      cfg ≠ none) := by
  constructor
  · intro g tmp out now url p s hx
    unfold download_file_bundle
    rw [hx]
    rfl
  · intro g tmp out now url p s cfg b h hc
    subst hc
    unfold download_file_bundle at h
    rcases hx : extractArchiveWithFallback p s with e | u
    · rw [hx] at h
      exact absurd h (by simp)
    · rw [hx] at h
      exact absurd h (by simp)

/-- Witness for `bundle_none_import_config_attribute_error` at a concrete
call whose extraction succeeds on the first attempt. -/
theorem bundle_none_import_config_attribute_error_witness :
    extractArchiveWithFallback (Except.ok ()) (Except.ok ()) = Except.ok () ∧
    download_file_bundle gWitness "/tmp/t" "/tmp/d" "now" (Except.ok ()) (Except.ok ())
        "http://h/a.zip" true none =
      Except.error BundleFailure.attributeError :=
  ⟨rfl, bundle_none_import_config_attribute_error.1 gWitness "/tmp/t" "/tmp/d" "now"
    "http://h/a.zip" (Except.ok ()) (Except.ok ()) rfl⟩

/-- Claim C10: the `doi` variable of the Zenodo retrieval is assigned exactly
when `accepts_uri` holds; for every accepted URI whose segment after
`/zenodo.` contains no `/` separator, `retrieve` fails with the
cannot-parse-DOI error for every record-lookup oracle — so without contacting
the record service — while the `retrieve_bundle` parse succeeds in whole-record
bundle mode (no file path); in particular `zenodo:10.5281/zenodo.1234` parses
for bundle retrieval to record id `1234` with no file path. -/
theorem zenodo_single_requires_file_path :
    (∀ uri, (zenodoDoiOfUri uri).isSome = (FileFromZenodoModel.accepts_uri uri).fst) ∧
    (∀ uri doi t0 t1, zenodoDoiOfUri uri = some doi →
      pySplit doi "/zenodo." = [t0, t1] →
      pyContains t1 "/" = false →
      (∀ (findRecord : String → ZenodoRecord) (fn : Option String) (am : Bool),
        FileFromZenodoModel.retrieve findRecord uri fn am =
          Except.error (ZenodoErr.cannotParseDoi doi)) ∧
      (∃ p, FileFromZenodoModel.parseBundle uri = Except.ok p ∧ p.filePath = none)) ∧
    FileFromZenodoModel.parseBundle "zenodo:10.5281/zenodo.1234" =
      Except.ok { doi := "10.5281/zenodo.1234", zid := "1234", filePath := none } := by
  refine ⟨?_, ?_, rfl⟩
  · intro uri
    unfold zenodoDoiOfUri FileFromZenodoModel.accepts_uri
    by_cases h1 : pyStartsWith uri "zenodo:" <;>
      by_cases h2 : pyContains uri "/zenodo." <;> simp [h1, h2]
  · intro uri doi t0 t1 hdoi hsplit hcont
    have hone : (pySplit t1 "/").length = 1 := by
      simpa [pyContains] using hcont
    rcases hl : pySplit t1 "/" with _ | ⟨x, _ | ⟨y, r⟩⟩
    · rw [hl] at hone; exact absurd hone (by simp)
    · have honce : pySplitOnce t1 "/" = [x] := by
        unfold pySplitOnce
        rw [hl]
      have hsingle : FileFromZenodoModel.parseSingle uri =
          Except.error (ZenodoErr.cannotParseDoi doi) := by
        simp [FileFromZenodoModel.parseSingle, hdoi, hsplit, honce]
      refine ⟨?_, ?_⟩
      · intro findRecord fn am
        simp [FileFromZenodoModel.retrieve, hsingle]
      · refine ⟨{ doi := t0 ++ "/zenodo." ++ x, zid := x, filePath := none }, ?_, rfl⟩
        simp [FileFromZenodoModel.parseBundle, hdoi, hsplit, honce]
    · rw [hl] at hone; exact absurd hone (by simp)

/-- Witness for `zenodo_single_requires_file_path` at the record-id-only URI
`zenodo:10.5281/zenodo.1234` with the empty record oracle. -/
theorem zenodo_single_requires_file_path_witness :
    (zenodoDoiOfUri "zenodo:10.5281/zenodo.1234" = some "10.5281/zenodo.1234" ∧
      pySplit "10.5281/zenodo.1234" "/zenodo." = ["10.5281", "1234"] ∧
      pyContains "1234" "/" = false) ∧
    FileFromZenodoModel.retrieve (fun _ => { files := [] })
        "zenodo:10.5281/zenodo.1234" none true =
      Except.error (ZenodoErr.cannotParseDoi "10.5281/zenodo.1234") :=
  ⟨⟨rfl, rfl, rfl⟩,
    (zenodo_single_requires_file_path.2.1 "zenodo:10.5281/zenodo.1234"
      "10.5281/zenodo.1234" "10.5281" "1234" rfl rfl rfl).1
      (fun _ => { files := [] }) none true⟩

end Onboarding
